import Mathlib

/-!
Verification of the Catena-Sketches TTN payload decoder
(`extra/catena-message-generic-decoder-ttn.js`).

The decoder takes a byte array and a port number and produces a record of
scaled measurements.  We embed the JavaScript source shallowly:

* bytes are a `List ℕ` (each entry a uint8); `bytes[i]` is `getByte`
  (out-of-range access is modelled as `0`, so value-level theorems about
  field contents carry explicit length hypotheses);
* JavaScript numbers are modelled as `ℚ` for the decoded fields, and as
  `ℝ` for the dew-point computation which uses `Math.log`;
* the record `decoded` is a structure of `Option`-valued fields, one per
  output key of the source, all initially `none`;
* each `if (flags & BIT) { ... }` block of the source becomes a step
  function on a pair (record, cursor), and each per-format branch is the
  composition of its step functions starting from cursor 2 (the source
  sets `i = 1` and then reads the flag byte with `bytes[i++]`);
* the implicit global variable `cmd` of the source is modelled explicitly
  by `DecoderStGen`, which threads an `Option ℕ` global state.
-/

namespace Catena

/-- Byte access `bytes[i]` (out of range modelled as 0). -/
def getByte (bytes : List ℕ) (i : ℕ) : ℕ := bytes.getD i 0

/-- Big-endian 16-bit read `(bytes[i] << 8) + bytes[i + 1]`. -/
def u16 (bytes : List ℕ) (i : ℕ) : ℕ :=
  (getByte bytes i <<< 8) + getByte bytes (i + 1)

/-- Reinterpretation of a uint16 as an int16:
`if (vRaw & 0x8000) vRaw += -0x10000`. -/
def toInt16 (v : ℕ) : ℤ :=
  if v &&& 0x8000 ≠ 0 then (v : ℤ) + -0x10000 else (v : ℤ)

/-- The 16-bit "mini-float" encoding used for power rates and AQI:
`exp = raw >> 12; mant = (raw & 0xFFF) / 4096.0; mant * 2^(exp - 15)`. -/
def uflt16 (raw : ℕ) : ℚ :=
  (((raw &&& 0xFFF : ℕ) : ℚ) / 4096) * (2 : ℚ) ^ (((raw >>> 12 : ℕ) : ℤ) - 15)

/-- The output record `decoded`.  Every field of the source is an
optional slot, `none` until its flag-guarded block assigns it.  The two
dew-point fields have type `α` so that the record and the step functions
stay parametric in the dew-point function (`α := ℝ` in the decoder). -/
structure DecodedRecord (α : Type) where
  vBat : Option ℚ := none
  vBus : Option ℚ := none
  boot : Option ℚ := none
  tempC : Option ℚ := none
  error : Option String := none
  p : Option ℚ := none
  rh : Option ℚ := none
  tDewC : Option α := none
  lux : Option ℚ := none
  tWater : Option ℚ := none
  tSoil : Option ℚ := none
  rhSoil : Option ℚ := none
  tSoilDew : Option α := none
  powerUsedCount : Option ℚ := none
  powerSourcedCount : Option ℚ := none
  powerUsedPerHour : Option ℚ := none
  powerSourcedPerHour : Option ℚ := none
  aqi : Option ℚ := none
deriving DecidableEq

variable {α : Type}

/-- `if (flags & 0x1) { vRaw = u16; sign-extend; decoded.vBat = vRaw / 4096.0; i += 2 }`
(identical in all four formats). -/
def stepVBat (bytes : List ℕ) (s : DecodedRecord α × ℕ) : DecodedRecord α × ℕ :=
  if getByte bytes 1 &&& 0x1 ≠ 0 then
    ({ s.1 with vBat := some ((toInt16 (u16 bytes s.2) : ℚ) / 4096) }, s.2 + 2)
  else s

/-- `if (flags & 0x2) { vRawBus = u16; sign-extend; decoded.vBus = vRawBus / 4096.0; i += 2 }`
(identical in all four formats). -/
def stepVBus (bytes : List ℕ) (s : DecodedRecord α × ℕ) : DecodedRecord α × ℕ :=
  if getByte bytes 1 &&& 0x2 ≠ 0 then
    ({ s.1 with vBus := some ((toInt16 (u16 bytes s.2) : ℚ) / 4096) }, s.2 + 2)
  else s

/-- `if (flags & 0x4) { decoded.boot = bytes[i]; i += 1 }` (formats 0x14, 0x15, 0x17). -/
def stepBoot (bytes : List ℕ) (s : DecodedRecord α × ℕ) : DecodedRecord α × ℕ :=
  if getByte bytes 1 &&& 0x4 ≠ 0 then
    ({ s.1 with boot := some ((getByte bytes s.2 : ℚ)) }, s.2 + 1)
  else s

/-- The temp/pressure/RH group, identical in all four formats (guarded by
flag bit 0x8 in formats 0x14/0x15/0x17 and by 0x4 in format 0x11):
sign-extended temperature / 256, pressure `* 4 / 100.0`, humidity
`/ 256 * 100`, `error = "none"`, and the derived dew point. -/
def stepTPH (bit : ℕ) (dew : ℚ → ℚ → α) (bytes : List ℕ)
    (s : DecodedRecord α × ℕ) : DecodedRecord α × ℕ :=
  if getByte bytes 1 &&& bit ≠ 0 then
    let tRaw := toInt16 (u16 bytes s.2)
    let pRaw := u16 bytes (s.2 + 2)
    let hRaw := getByte bytes (s.2 + 4)
    let tempC : ℚ := (tRaw : ℚ) / 256
    let rh : ℚ := (hRaw : ℚ) / 256 * 100
    ({ s.1 with tempC := some tempC, error := some "none",
                p := some ((pRaw : ℚ) * 4 / 100), rh := some rh,
                tDewC := some (dew tempC rh) }, s.2 + 5)
  else s

/-- `{ luxRaw = u16; decoded.lux = luxRaw; i += 2 }` (flag bit 0x10 in
formats 0x14/0x15/0x17, flag bit 0x8 in format 0x11). -/
def stepLux (bit : ℕ) (bytes : List ℕ) (s : DecodedRecord α × ℕ) : DecodedRecord α × ℕ :=
  if getByte bytes 1 &&& bit ≠ 0 then
    ({ s.1 with lux := some ((u16 bytes s.2 : ℚ)) }, s.2 + 2)
  else s

/-- Format 0x14, `flags & 0x20`: the two watt-hour counters, two uint16 reads. -/
def stepPowerCount (bytes : List ℕ) (s : DecodedRecord α × ℕ) : DecodedRecord α × ℕ :=
  if getByte bytes 1 &&& 0x20 ≠ 0 then
    ({ s.1 with powerUsedCount := some ((u16 bytes s.2 : ℚ)),
                powerSourcedCount := some ((u16 bytes (s.2 + 2) : ℚ)) }, s.2 + 4)
  else s

/-- Format 0x14, `flags & 0x40`: the two mini-float pulse rates, each
`mant * 2^(exp - 15) * 60 * 60 * 4`. -/
def stepPowerRate (bytes : List ℕ) (s : DecodedRecord α × ℕ) : DecodedRecord α × ℕ :=
  if getByte bytes 1 &&& 0x40 ≠ 0 then
    ({ s.1 with powerUsedPerHour := some (uflt16 (u16 bytes s.2) * 60 * 60 * 4),
                powerSourcedPerHour := some (uflt16 (u16 bytes (s.2 + 2)) * 60 * 60 * 4) },
     s.2 + 4)
  else s

/-- Format 0x15, `flags & 0x20`: one-wire temperature with sign extension. -/
def stepWaterSigned (bytes : List ℕ) (s : DecodedRecord α × ℕ) : DecodedRecord α × ℕ :=
  if getByte bytes 1 &&& 0x20 ≠ 0 then
    ({ s.1 with tWater := some ((toInt16 (u16 bytes s.2) : ℚ) / 256) }, s.2 + 2)
  else s

/-- Format 0x11, `flags & 0x10`: one-wire temperature, read as a plain
uint16 (the source has no sign-extension step here). -/
def stepWaterUnsigned (bytes : List ℕ) (s : DecodedRecord α × ℕ) : DecodedRecord α × ℕ :=
  if getByte bytes 1 &&& 0x10 ≠ 0 then
    ({ s.1 with tWater := some ((u16 bytes s.2 : ℚ) / 256) }, s.2 + 2)
  else s

/-- Format 0x15, `flags & 0x40`: soil temperature (sign-extended) followed
by a one-byte soil RH, with the derived soil dew point. -/
def stepSoilSigned (dew : ℚ → ℚ → α) (bytes : List ℕ)
    (s : DecodedRecord α × ℕ) : DecodedRecord α × ℕ :=
  if getByte bytes 1 &&& 0x40 ≠ 0 then
    let tempRaw := toInt16 (u16 bytes s.2)
    let tempRH := getByte bytes (s.2 + 2)
    let tSoil : ℚ := (tempRaw : ℚ) / 256
    let rhSoil : ℚ := (tempRH : ℚ) / 256 * 100
    ({ s.1 with tSoil := some tSoil, rhSoil := some rhSoil,
                tSoilDew := some (dew tSoil rhSoil) }, s.2 + 3)
  else s

/-- Format 0x11, `flags & 0x20`: soil temperature read as a plain uint16
(the source has no sign-extension step here) followed by a one-byte soil
RH, with the derived soil dew point. -/
def stepSoilUnsigned (dew : ℚ → ℚ → α) (bytes : List ℕ)
    (s : DecodedRecord α × ℕ) : DecodedRecord α × ℕ :=
  if getByte bytes 1 &&& 0x20 ≠ 0 then
    let tempRaw := u16 bytes s.2
    let tempRH := getByte bytes (s.2 + 2)
    let tSoil : ℚ := (tempRaw : ℚ) / 256
    let rhSoil : ℚ := (tempRH : ℚ) / 256 * 100
    ({ s.1 with tSoil := some tSoil, rhSoil := some rhSoil,
                tSoilDew := some (dew tSoil rhSoil) }, s.2 + 3)
  else s

/-- Format 0x17, `flags & 0x20`: the air-quality index,
`mant1 * 2^(exp1 - 15) * 512`. -/
def stepAqi (bytes : List ℕ) (s : DecodedRecord α × ℕ) : DecodedRecord α × ℕ :=
  if getByte bytes 1 &&& 0x20 ≠ 0 then
    ({ s.1 with aqi := some (uflt16 (u16 bytes s.2) * 512) }, s.2 + 2)
  else s

/-- The `cmd == 0x14` branch (Catena 4450 M101). -/
def decode14 (dew : ℚ → ℚ → α) (bytes : List ℕ) : DecodedRecord α × ℕ :=
  let s0 : DecodedRecord α × ℕ := ({}, 2)
  let s1 := stepVBat bytes s0
  let s2 := stepVBus bytes s1
  let s3 := stepBoot bytes s2
  let s4 := stepTPH 0x8 dew bytes s3
  let s5 := stepLux 0x10 bytes s4
  let s6 := stepPowerCount bytes s5
  stepPowerRate bytes s6

/-- The `cmd == 0x15` branch (Catena 4450 M102). -/
def decode15 (dew : ℚ → ℚ → α) (bytes : List ℕ) : DecodedRecord α × ℕ :=
  let s0 : DecodedRecord α × ℕ := ({}, 2)
  let s1 := stepVBat bytes s0
  let s2 := stepVBus bytes s1
  let s3 := stepBoot bytes s2
  let s4 := stepTPH 0x8 dew bytes s3
  let s5 := stepLux 0x10 bytes s4
  let s6 := stepWaterSigned bytes s5
  stepSoilSigned dew bytes s6

/-- The `cmd == 0x11` branch (Catena 4410): no boot byte; the
temp/pressure/RH group sits on bit 0x4 and lux on bit 0x8; the one-wire
and soil temperatures are read without sign extension. -/
def decode11 (dew : ℚ → ℚ → α) (bytes : List ℕ) : DecodedRecord α × ℕ :=
  let s0 : DecodedRecord α × ℕ := ({}, 2)
  let s1 := stepVBat bytes s0
  let s2 := stepVBus bytes s1
  let s3 := stepTPH 0x4 dew bytes s2
  let s4 := stepLux 0x8 bytes s3
  let s5 := stepWaterUnsigned bytes s4
  stepSoilUnsigned dew bytes s5

/-- The `cmd == 0x17` branch (Catena 4460 AQI). -/
def decode17 (dew : ℚ → ℚ → α) (bytes : List ℕ) : DecodedRecord α × ℕ :=
  let s0 : DecodedRecord α × ℕ := ({}, 2)
  let s1 := stepVBat bytes s0
  let s2 := stepVBus bytes s1
  let s3 := stepBoot bytes s2
  let s4 := stepTPH 0x8 dew bytes s3
  let s5 := stepLux 0x10 bytes s4
  stepAqi bytes s5

/-- The format dispatch on the value of the global `cmd`
(`if (cmd == 0x14) ... else if (cmd == 0x15) ... else if (cmd == 0x11)
... else if (cmd == 0x17) ... else {}`). -/
def dispatch (dew : ℚ → ℚ → α) (bytes : List ℕ) (cmd : ℕ) : DecodedRecord α :=
  if cmd = 0x14 then (decode14 dew bytes).1
  else if cmd = 0x15 then (decode15 dew bytes).1
  else if cmd = 0x11 then (decode11 dew bytes).1
  else if cmd = 0x17 then (decode17 dew bytes).1
  else {}

/-- The full `Decoder(bytes, port)` with the implicit global `cmd` made
explicit: the incoming global state `g` is the value of `cmd` left over
from any previous invocation (`none` if never assigned).  On port 1 the
source assigns `cmd = bytes[0]` before reading it; on any other port the
global is untouched and an empty record is returned. -/
def DecoderStGen (dew : ℚ → ℚ → α) (bytes : List ℕ) (port : ℕ)
    (g : Option ℕ) : DecodedRecord α × Option ℕ :=
  if port = 1 then
    (dispatch dew bytes (getByte bytes 0), some (getByte bytes 0))
  else ({}, g)

/-- `Decoder(bytes, port)` as a pure function of its two arguments. -/
def DecoderGen (dew : ℚ → ℚ → α) (bytes : List ℕ) (port : ℕ) : DecodedRecord α :=
  if port = 1 then dispatch dew bytes (getByte bytes 0) else {}

/-- The dew-point function of the source (`Math.log` is `Real.log`):
`h = rh / 100` clamped below at `0.01` and above at `1.0`, then
`c1 * (lnh + t * c2 / (t + c1)) / (c2 - lnh - t * c2 / (t + c1))`
with `c1 = 243.04`, `c2 = 17.625`. -/
noncomputable def dewpoint (t rh : ℝ) : ℝ :=
  let c1 : ℝ := 243.04
  let c2 : ℝ := 17.625
  let h0 : ℝ := rh / 100
  let h : ℝ := if h0 ≤ 0.01 then 0.01 else if 1.0 < h0 then 1.0 else h0
  let lnh := Real.log h
  let tpc1 := t + c1
  let txc2 := t * c2
  let txc2_tpc1 := txc2 / tpc1
  c1 * (lnh + txc2_tpc1) / (c2 - lnh - txc2_tpc1)

/-- The dew-point function on the rational decoded values. -/
noncomputable def dewQ : ℚ → ℚ → ℝ := fun t rh => dewpoint (t : ℝ) (rh : ℝ)

/-- The decoder itself: `DecoderGen` instantiated with the real dew-point
function. -/
noncomputable def Decoder (bytes : List ℕ) (port : ℕ) : DecodedRecord ℝ :=
  DecoderGen dewQ bytes port

/-- The decoder with the global `cmd` threaded through. -/
noncomputable def DecoderSt (bytes : List ℕ) (port : ℕ) (g : Option ℕ) :
    DecodedRecord ℝ × Option ℕ :=
  DecoderStGen dewQ bytes port g

/-- A dew-point stub used only to compute cursor traces (the cursor never
depends on the dew-point values). -/
def unitDew : ℚ → ℚ → Unit := fun _ _ => ()

/-- Successive values of the cursor `i` in the `cmd == 0x14` branch:
`i = 1`, then `2` after the flag byte is fetched, then the value after
each flag-guarded block. -/
def trace14 (bytes : List ℕ) : List ℕ :=
  let s0 : DecodedRecord Unit × ℕ := ({}, 2)
  let s1 := stepVBat bytes s0
  let s2 := stepVBus bytes s1
  let s3 := stepBoot bytes s2
  let s4 := stepTPH 0x8 unitDew bytes s3
  let s5 := stepLux 0x10 bytes s4
  let s6 := stepPowerCount bytes s5
  let s7 := stepPowerRate bytes s6
  [1, s0.2, s1.2, s2.2, s3.2, s4.2, s5.2, s6.2, s7.2]

/-- Successive cursor values in the `cmd == 0x15` branch. -/
def trace15 (bytes : List ℕ) : List ℕ :=
  let s0 : DecodedRecord Unit × ℕ := ({}, 2)
  let s1 := stepVBat bytes s0
  let s2 := stepVBus bytes s1
  let s3 := stepBoot bytes s2
  let s4 := stepTPH 0x8 unitDew bytes s3
  let s5 := stepLux 0x10 bytes s4
  let s6 := stepWaterSigned bytes s5
  let s7 := stepSoilSigned unitDew bytes s6
  [1, s0.2, s1.2, s2.2, s3.2, s4.2, s5.2, s6.2, s7.2]

/-- Successive cursor values in the `cmd == 0x11` branch. -/
def trace11 (bytes : List ℕ) : List ℕ :=
  let s0 : DecodedRecord Unit × ℕ := ({}, 2)
  let s1 := stepVBat bytes s0
  let s2 := stepVBus bytes s1
  let s3 := stepTPH 0x4 unitDew bytes s2
  let s4 := stepLux 0x8 bytes s3
  let s5 := stepWaterUnsigned bytes s4
  let s6 := stepSoilUnsigned unitDew bytes s5
  [1, s0.2, s1.2, s2.2, s3.2, s4.2, s5.2, s6.2]

/-- Successive cursor values in the `cmd == 0x17` branch. -/
def trace17 (bytes : List ℕ) : List ℕ :=
  let s0 : DecodedRecord Unit × ℕ := ({}, 2)
  let s1 := stepVBat bytes s0
  let s2 := stepVBus bytes s1
  let s3 := stepBoot bytes s2
  let s4 := stepTPH 0x8 unitDew bytes s3
  let s5 := stepLux 0x10 bytes s4
  let s6 := stepAqi bytes s5
  [1, s0.2, s1.2, s2.2, s3.2, s4.2, s5.2, s6.2]

/-- Successive cursor values of one decode invocation (empty if the
channel or the format byte is not recognized, in which case no cursor
variable exists in the source). -/
def DecoderTrace (bytes : List ℕ) (port : ℕ) : List ℕ :=
  if port = 1 then
    if getByte bytes 0 = 0x14 then trace14 bytes
    else if getByte bytes 0 = 0x15 then trace15 bytes
    else if getByte bytes 0 = 0x11 then trace11 bytes
    else if getByte bytes 0 = 0x17 then trace17 bytes
    else []
  else []

/-! ## Step characterization lemmas -/

attribute [ext] DecodedRecord

lemma stepVBat_fst (bytes : List ℕ) (s : DecodedRecord α × ℕ) :
    (stepVBat bytes s).1 =
      if getByte bytes 1 &&& 0x1 ≠ 0 then
        { s.1 with vBat := some ((toInt16 (u16 bytes s.2) : ℚ) / 4096) }
      else s.1 := by
  unfold stepVBat; split <;> rfl

lemma stepVBus_fst (bytes : List ℕ) (s : DecodedRecord α × ℕ) :
    (stepVBus bytes s).1 =
      if getByte bytes 1 &&& 0x2 ≠ 0 then
        { s.1 with vBus := some ((toInt16 (u16 bytes s.2) : ℚ) / 4096) }
      else s.1 := by
  unfold stepVBus; split <;> rfl

lemma stepBoot_fst (bytes : List ℕ) (s : DecodedRecord α × ℕ) :
    (stepBoot bytes s).1 =
      if getByte bytes 1 &&& 0x4 ≠ 0 then
        { s.1 with boot := some ((getByte bytes s.2 : ℚ)) }
      else s.1 := by
  unfold stepBoot; split <;> rfl

lemma stepTPH_fst (bit : ℕ) (dew : ℚ → ℚ → α) (bytes : List ℕ) (s : DecodedRecord α × ℕ) :
    (stepTPH bit dew bytes s).1 =
      if getByte bytes 1 &&& bit ≠ 0 then
        { s.1 with tempC := some ((toInt16 (u16 bytes s.2) : ℚ) / 256),
                   error := some "none",
                   p := some ((u16 bytes (s.2 + 2) : ℚ) * 4 / 100),
                   rh := some ((getByte bytes (s.2 + 4) : ℚ) / 256 * 100),
                   tDewC := some (dew ((toInt16 (u16 bytes s.2) : ℚ) / 256)
                     ((getByte bytes (s.2 + 4) : ℚ) / 256 * 100)) }
      else s.1 := by
  unfold stepTPH; split <;> rfl

lemma stepLux_fst (bit : ℕ) (bytes : List ℕ) (s : DecodedRecord α × ℕ) :
    (stepLux bit bytes s).1 =
      if getByte bytes 1 &&& bit ≠ 0 then
        { s.1 with lux := some ((u16 bytes s.2 : ℚ)) }
      else s.1 := by
  unfold stepLux; split <;> rfl

lemma stepPowerCount_fst (bytes : List ℕ) (s : DecodedRecord α × ℕ) :
    (stepPowerCount bytes s).1 =
      if getByte bytes 1 &&& 0x20 ≠ 0 then
        { s.1 with powerUsedCount := some ((u16 bytes s.2 : ℚ)),
                   powerSourcedCount := some ((u16 bytes (s.2 + 2) : ℚ)) }
      else s.1 := by
  unfold stepPowerCount; split <;> rfl

lemma stepPowerRate_fst (bytes : List ℕ) (s : DecodedRecord α × ℕ) :
    (stepPowerRate bytes s).1 =
      if getByte bytes 1 &&& 0x40 ≠ 0 then
        { s.1 with powerUsedPerHour := some (uflt16 (u16 bytes s.2) * 60 * 60 * 4),
                   powerSourcedPerHour := some (uflt16 (u16 bytes (s.2 + 2)) * 60 * 60 * 4) }
      else s.1 := by
  unfold stepPowerRate; split <;> rfl

lemma stepWaterSigned_fst (bytes : List ℕ) (s : DecodedRecord α × ℕ) :
    (stepWaterSigned bytes s).1 =
      if getByte bytes 1 &&& 0x20 ≠ 0 then
        { s.1 with tWater := some ((toInt16 (u16 bytes s.2) : ℚ) / 256) }
      else s.1 := by
  unfold stepWaterSigned; split <;> rfl

lemma stepWaterUnsigned_fst (bytes : List ℕ) (s : DecodedRecord α × ℕ) :
    (stepWaterUnsigned bytes s).1 =
      if getByte bytes 1 &&& 0x10 ≠ 0 then
        { s.1 with tWater := some ((u16 bytes s.2 : ℚ) / 256) }
      else s.1 := by
  unfold stepWaterUnsigned; split <;> rfl

lemma stepSoilSigned_fst (dew : ℚ → ℚ → α) (bytes : List ℕ) (s : DecodedRecord α × ℕ) :
    (stepSoilSigned dew bytes s).1 =
      if getByte bytes 1 &&& 0x40 ≠ 0 then
        { s.1 with tSoil := some ((toInt16 (u16 bytes s.2) : ℚ) / 256),
                   rhSoil := some ((getByte bytes (s.2 + 2) : ℚ) / 256 * 100),
                   tSoilDew := some (dew ((toInt16 (u16 bytes s.2) : ℚ) / 256)
                     ((getByte bytes (s.2 + 2) : ℚ) / 256 * 100)) }
      else s.1 := by
  unfold stepSoilSigned; split <;> rfl

lemma stepSoilUnsigned_fst (dew : ℚ → ℚ → α) (bytes : List ℕ) (s : DecodedRecord α × ℕ) :
    (stepSoilUnsigned dew bytes s).1 =
      if getByte bytes 1 &&& 0x20 ≠ 0 then
        { s.1 with tSoil := some ((u16 bytes s.2 : ℚ) / 256),
                   rhSoil := some ((getByte bytes (s.2 + 2) : ℚ) / 256 * 100),
                   tSoilDew := some (dew ((u16 bytes s.2 : ℚ) / 256)
                     ((getByte bytes (s.2 + 2) : ℚ) / 256 * 100)) }
      else s.1 := by
  unfold stepSoilUnsigned; split <;> rfl

lemma stepAqi_fst (bytes : List ℕ) (s : DecodedRecord α × ℕ) :
    (stepAqi bytes s).1 =
      if getByte bytes 1 &&& 0x20 ≠ 0 then
        { s.1 with aqi := some (uflt16 (u16 bytes s.2) * 512) }
      else s.1 := by
  unfold stepAqi; split <;> rfl

lemma stepVBat_snd (bytes : List ℕ) (s : DecodedRecord α × ℕ) :
    (stepVBat bytes s).2 = s.2 + (if getByte bytes 1 &&& 0x1 ≠ 0 then 2 else 0) := by
  unfold stepVBat; split <;> simp

lemma stepVBus_snd (bytes : List ℕ) (s : DecodedRecord α × ℕ) :
    (stepVBus bytes s).2 = s.2 + (if getByte bytes 1 &&& 0x2 ≠ 0 then 2 else 0) := by
  unfold stepVBus; split <;> simp

lemma stepBoot_snd (bytes : List ℕ) (s : DecodedRecord α × ℕ) :
    (stepBoot bytes s).2 = s.2 + (if getByte bytes 1 &&& 0x4 ≠ 0 then 1 else 0) := by
  unfold stepBoot; split <;> simp

lemma stepTPH_snd (bit : ℕ) (dew : ℚ → ℚ → α) (bytes : List ℕ) (s : DecodedRecord α × ℕ) :
    (stepTPH bit dew bytes s).2 = s.2 + (if getByte bytes 1 &&& bit ≠ 0 then 5 else 0) := by
  unfold stepTPH; split <;> simp

lemma stepLux_snd (bit : ℕ) (bytes : List ℕ) (s : DecodedRecord α × ℕ) :
    (stepLux bit bytes s).2 = s.2 + (if getByte bytes 1 &&& bit ≠ 0 then 2 else 0) := by
  unfold stepLux; split <;> simp

lemma stepPowerCount_snd (bytes : List ℕ) (s : DecodedRecord α × ℕ) :
    (stepPowerCount bytes s).2 = s.2 + (if getByte bytes 1 &&& 0x20 ≠ 0 then 4 else 0) := by
  unfold stepPowerCount; split <;> simp

lemma stepPowerRate_snd (bytes : List ℕ) (s : DecodedRecord α × ℕ) :
    (stepPowerRate bytes s).2 = s.2 + (if getByte bytes 1 &&& 0x40 ≠ 0 then 4 else 0) := by
  unfold stepPowerRate; split <;> simp

lemma stepWaterSigned_snd (bytes : List ℕ) (s : DecodedRecord α × ℕ) :
    (stepWaterSigned bytes s).2 = s.2 + (if getByte bytes 1 &&& 0x20 ≠ 0 then 2 else 0) := by
  unfold stepWaterSigned; split <;> simp

lemma stepWaterUnsigned_snd (bytes : List ℕ) (s : DecodedRecord α × ℕ) :
    (stepWaterUnsigned bytes s).2 = s.2 + (if getByte bytes 1 &&& 0x10 ≠ 0 then 2 else 0) := by
  unfold stepWaterUnsigned; split <;> simp

lemma stepSoilSigned_snd (dew : ℚ → ℚ → α) (bytes : List ℕ) (s : DecodedRecord α × ℕ) :
    (stepSoilSigned dew bytes s).2 = s.2 + (if getByte bytes 1 &&& 0x40 ≠ 0 then 3 else 0) := by
  unfold stepSoilSigned; split <;> simp

lemma stepSoilUnsigned_snd (dew : ℚ → ℚ → α) (bytes : List ℕ) (s : DecodedRecord α × ℕ) :
    (stepSoilUnsigned dew bytes s).2 = s.2 + (if getByte bytes 1 &&& 0x20 ≠ 0 then 3 else 0) := by
  unfold stepSoilUnsigned; split <;> simp

lemma stepAqi_snd (bytes : List ℕ) (s : DecodedRecord α × ℕ) :
    (stepAqi bytes s).2 = s.2 + (if getByte bytes 1 &&& 0x20 ≠ 0 then 2 else 0) := by
  unfold stepAqi; split <;> simp

/-! ## Explicit form of each per-format branch

Each branch, fully unfolded: every field is present exactly when its flag
bit is set, and is read at the offset obtained by summing the widths of
the fields selected by the lower bits. -/

lemma decode14_fst (dew : ℚ → ℚ → α) (bytes : List ℕ) :
    (decode14 dew bytes).1 =
      { vBat := if getByte bytes 1 &&& 0x1 ≠ 0 then
          some ((toInt16 (u16 bytes 2) : ℚ) / 4096) else none
        vBus := if getByte bytes 1 &&& 0x2 ≠ 0 then
          some ((toInt16 (u16 bytes (2 + (if getByte bytes 1 &&& 0x1 ≠ 0 then 2 else 0))) : ℚ) / 4096)
          else none
        boot := if getByte bytes 1 &&& 0x4 ≠ 0 then
          some ((getByte bytes (2 + (if getByte bytes 1 &&& 0x1 ≠ 0 then 2 else 0)
            + (if getByte bytes 1 &&& 0x2 ≠ 0 then 2 else 0)) : ℚ)) else none
        tempC := if getByte bytes 1 &&& 0x8 ≠ 0 then
          some ((toInt16 (u16 bytes (2 + (if getByte bytes 1 &&& 0x1 ≠ 0 then 2 else 0)
            + (if getByte bytes 1 &&& 0x2 ≠ 0 then 2 else 0)
            + (if getByte bytes 1 &&& 0x4 ≠ 0 then 1 else 0))) : ℚ) / 256) else none
        error := if getByte bytes 1 &&& 0x8 ≠ 0 then some "none" else none
        p := if getByte bytes 1 &&& 0x8 ≠ 0 then
          some ((u16 bytes (2 + (if getByte bytes 1 &&& 0x1 ≠ 0 then 2 else 0)
            + (if getByte bytes 1 &&& 0x2 ≠ 0 then 2 else 0)
            + (if getByte bytes 1 &&& 0x4 ≠ 0 then 1 else 0) + 2) : ℚ) * 4 / 100) else none
        rh := if getByte bytes 1 &&& 0x8 ≠ 0 then
          some ((getByte bytes (2 + (if getByte bytes 1 &&& 0x1 ≠ 0 then 2 else 0)
            + (if getByte bytes 1 &&& 0x2 ≠ 0 then 2 else 0)
            + (if getByte bytes 1 &&& 0x4 ≠ 0 then 1 else 0) + 4) : ℚ) / 256 * 100) else none
        tDewC := if getByte bytes 1 &&& 0x8 ≠ 0 then
          some (dew
            ((toInt16 (u16 bytes (2 + (if getByte bytes 1 &&& 0x1 ≠ 0 then 2 else 0)
              + (if getByte bytes 1 &&& 0x2 ≠ 0 then 2 else 0)
              + (if getByte bytes 1 &&& 0x4 ≠ 0 then 1 else 0))) : ℚ) / 256)
            ((getByte bytes (2 + (if getByte bytes 1 &&& 0x1 ≠ 0 then 2 else 0)
              + (if getByte bytes 1 &&& 0x2 ≠ 0 then 2 else 0)
              + (if getByte bytes 1 &&& 0x4 ≠ 0 then 1 else 0) + 4) : ℚ) / 256 * 100))
          else none
        lux := if getByte bytes 1 &&& 0x10 ≠ 0 then
          some ((u16 bytes (2 + (if getByte bytes 1 &&& 0x1 ≠ 0 then 2 else 0)
            + (if getByte bytes 1 &&& 0x2 ≠ 0 then 2 else 0)
            + (if getByte bytes 1 &&& 0x4 ≠ 0 then 1 else 0)
            + (if getByte bytes 1 &&& 0x8 ≠ 0 then 5 else 0)) : ℚ)) else none
        tWater := none
        tSoil := none
        rhSoil := none
        tSoilDew := none
        powerUsedCount := if getByte bytes 1 &&& 0x20 ≠ 0 then
          some ((u16 bytes (2 + (if getByte bytes 1 &&& 0x1 ≠ 0 then 2 else 0)
            + (if getByte bytes 1 &&& 0x2 ≠ 0 then 2 else 0)
            + (if getByte bytes 1 &&& 0x4 ≠ 0 then 1 else 0)
            + (if getByte bytes 1 &&& 0x8 ≠ 0 then 5 else 0)
            + (if getByte bytes 1 &&& 0x10 ≠ 0 then 2 else 0)) : ℚ)) else none
        powerSourcedCount := if getByte bytes 1 &&& 0x20 ≠ 0 then
          some ((u16 bytes (2 + (if getByte bytes 1 &&& 0x1 ≠ 0 then 2 else 0)
            + (if getByte bytes 1 &&& 0x2 ≠ 0 then 2 else 0)
            + (if getByte bytes 1 &&& 0x4 ≠ 0 then 1 else 0)
            + (if getByte bytes 1 &&& 0x8 ≠ 0 then 5 else 0)
            + (if getByte bytes 1 &&& 0x10 ≠ 0 then 2 else 0) + 2) : ℚ)) else none
        powerUsedPerHour := if getByte bytes 1 &&& 0x40 ≠ 0 then
          some (uflt16 (u16 bytes (2 + (if getByte bytes 1 &&& 0x1 ≠ 0 then 2 else 0)
            + (if getByte bytes 1 &&& 0x2 ≠ 0 then 2 else 0)
            + (if getByte bytes 1 &&& 0x4 ≠ 0 then 1 else 0)
            + (if getByte bytes 1 &&& 0x8 ≠ 0 then 5 else 0)
            + (if getByte bytes 1 &&& 0x10 ≠ 0 then 2 else 0)
            + (if getByte bytes 1 &&& 0x20 ≠ 0 then 4 else 0))) * 60 * 60 * 4) else none
        powerSourcedPerHour := if getByte bytes 1 &&& 0x40 ≠ 0 then
          some (uflt16 (u16 bytes (2 + (if getByte bytes 1 &&& 0x1 ≠ 0 then 2 else 0)
            + (if getByte bytes 1 &&& 0x2 ≠ 0 then 2 else 0)
            + (if getByte bytes 1 &&& 0x4 ≠ 0 then 1 else 0)
            + (if getByte bytes 1 &&& 0x8 ≠ 0 then 5 else 0)
            + (if getByte bytes 1 &&& 0x10 ≠ 0 then 2 else 0)
            + (if getByte bytes 1 &&& 0x20 ≠ 0 then 4 else 0) + 2)) * 60 * 60 * 4) else none
        aqi := none } := by
  ext1 <;>
  simp only [decode14, stepPowerRate_fst, stepPowerRate_snd, stepPowerCount_fst,
    stepPowerCount_snd, stepLux_fst, stepLux_snd, stepTPH_fst, stepTPH_snd,
    stepBoot_fst, stepBoot_snd, stepVBus_fst, stepVBus_snd, stepVBat_fst, stepVBat_snd,
    apply_ite DecodedRecord.vBat, apply_ite DecodedRecord.vBus,
    apply_ite DecodedRecord.boot, apply_ite DecodedRecord.tempC,
    apply_ite DecodedRecord.error, apply_ite DecodedRecord.p,
    apply_ite DecodedRecord.rh, apply_ite DecodedRecord.tDewC,
    apply_ite DecodedRecord.lux, apply_ite DecodedRecord.tWater,
    apply_ite DecodedRecord.tSoil, apply_ite DecodedRecord.rhSoil,
    apply_ite DecodedRecord.tSoilDew, apply_ite DecodedRecord.powerUsedCount,
    apply_ite DecodedRecord.powerSourcedCount, apply_ite DecodedRecord.powerUsedPerHour,
    apply_ite DecodedRecord.powerSourcedPerHour, apply_ite DecodedRecord.aqi, ite_self]

lemma decode15_fst (dew : ℚ → ℚ → α) (bytes : List ℕ) :
    (decode15 dew bytes).1 =
      { vBat := if getByte bytes 1 &&& 0x1 ≠ 0 then
          some ((toInt16 (u16 bytes 2) : ℚ) / 4096) else none
        vBus := if getByte bytes 1 &&& 0x2 ≠ 0 then
          some ((toInt16 (u16 bytes (2 + (if getByte bytes 1 &&& 0x1 ≠ 0 then 2 else 0))) : ℚ) / 4096)
          else none
        boot := if getByte bytes 1 &&& 0x4 ≠ 0 then
          some ((getByte bytes (2 + (if getByte bytes 1 &&& 0x1 ≠ 0 then 2 else 0)
            + (if getByte bytes 1 &&& 0x2 ≠ 0 then 2 else 0)) : ℚ)) else none
        tempC := if getByte bytes 1 &&& 0x8 ≠ 0 then
          some ((toInt16 (u16 bytes (2 + (if getByte bytes 1 &&& 0x1 ≠ 0 then 2 else 0)
            + (if getByte bytes 1 &&& 0x2 ≠ 0 then 2 else 0)
            + (if getByte bytes 1 &&& 0x4 ≠ 0 then 1 else 0))) : ℚ) / 256) else none
        error := if getByte bytes 1 &&& 0x8 ≠ 0 then some "none" else none
        p := if getByte bytes 1 &&& 0x8 ≠ 0 then
          some ((u16 bytes (2 + (if getByte bytes 1 &&& 0x1 ≠ 0 then 2 else 0)
            + (if getByte bytes 1 &&& 0x2 ≠ 0 then 2 else 0)
            + (if getByte bytes 1 &&& 0x4 ≠ 0 then 1 else 0) + 2) : ℚ) * 4 / 100) else none
        rh := if getByte bytes 1 &&& 0x8 ≠ 0 then
          some ((getByte bytes (2 + (if getByte bytes 1 &&& 0x1 ≠ 0 then 2 else 0)
            + (if getByte bytes 1 &&& 0x2 ≠ 0 then 2 else 0)
            + (if getByte bytes 1 &&& 0x4 ≠ 0 then 1 else 0) + 4) : ℚ) / 256 * 100) else none
        tDewC := if getByte bytes 1 &&& 0x8 ≠ 0 then
          some (dew
            ((toInt16 (u16 bytes (2 + (if getByte bytes 1 &&& 0x1 ≠ 0 then 2 else 0)
              + (if getByte bytes 1 &&& 0x2 ≠ 0 then 2 else 0)
              + (if getByte bytes 1 &&& 0x4 ≠ 0 then 1 else 0))) : ℚ) / 256)
            ((getByte bytes (2 + (if getByte bytes 1 &&& 0x1 ≠ 0 then 2 else 0)
              + (if getByte bytes 1 &&& 0x2 ≠ 0 then 2 else 0)
              + (if getByte bytes 1 &&& 0x4 ≠ 0 then 1 else 0) + 4) : ℚ) / 256 * 100))
          else none
        lux := if getByte bytes 1 &&& 0x10 ≠ 0 then
          some ((u16 bytes (2 + (if getByte bytes 1 &&& 0x1 ≠ 0 then 2 else 0)
            + (if getByte bytes 1 &&& 0x2 ≠ 0 then 2 else 0)
            + (if getByte bytes 1 &&& 0x4 ≠ 0 then 1 else 0)
            + (if getByte bytes 1 &&& 0x8 ≠ 0 then 5 else 0)) : ℚ)) else none
        tWater := if getByte bytes 1 &&& 0x20 ≠ 0 then
          some ((toInt16 (u16 bytes (2 + (if getByte bytes 1 &&& 0x1 ≠ 0 then 2 else 0)
            + (if getByte bytes 1 &&& 0x2 ≠ 0 then 2 else 0)
            + (if getByte bytes 1 &&& 0x4 ≠ 0 then 1 else 0)
            + (if getByte bytes 1 &&& 0x8 ≠ 0 then 5 else 0)
            + (if getByte bytes 1 &&& 0x10 ≠ 0 then 2 else 0))) : ℚ) / 256) else none
        tSoil := if getByte bytes 1 &&& 0x40 ≠ 0 then
          some ((toInt16 (u16 bytes (2 + (if getByte bytes 1 &&& 0x1 ≠ 0 then 2 else 0)
            + (if getByte bytes 1 &&& 0x2 ≠ 0 then 2 else 0)
            + (if getByte bytes 1 &&& 0x4 ≠ 0 then 1 else 0)
            + (if getByte bytes 1 &&& 0x8 ≠ 0 then 5 else 0)
            + (if getByte bytes 1 &&& 0x10 ≠ 0 then 2 else 0)
            + (if getByte bytes 1 &&& 0x20 ≠ 0 then 2 else 0))) : ℚ) / 256) else none
        rhSoil := if getByte bytes 1 &&& 0x40 ≠ 0 then
          some ((getByte bytes (2 + (if getByte bytes 1 &&& 0x1 ≠ 0 then 2 else 0)
            + (if getByte bytes 1 &&& 0x2 ≠ 0 then 2 else 0)
            + (if getByte bytes 1 &&& 0x4 ≠ 0 then 1 else 0)
            + (if getByte bytes 1 &&& 0x8 ≠ 0 then 5 else 0)
            + (if getByte bytes 1 &&& 0x10 ≠ 0 then 2 else 0)
            + (if getByte bytes 1 &&& 0x20 ≠ 0 then 2 else 0) + 2) : ℚ) / 256 * 100) else none
        tSoilDew := if getByte bytes 1 &&& 0x40 ≠ 0 then
          some (dew
            ((toInt16 (u16 bytes (2 + (if getByte bytes 1 &&& 0x1 ≠ 0 then 2 else 0)
              + (if getByte bytes 1 &&& 0x2 ≠ 0 then 2 else 0)
              + (if getByte bytes 1 &&& 0x4 ≠ 0 then 1 else 0)
              + (if getByte bytes 1 &&& 0x8 ≠ 0 then 5 else 0)
              + (if getByte bytes 1 &&& 0x10 ≠ 0 then 2 else 0)
              + (if getByte bytes 1 &&& 0x20 ≠ 0 then 2 else 0))) : ℚ) / 256)
            ((getByte bytes (2 + (if getByte bytes 1 &&& 0x1 ≠ 0 then 2 else 0)
              + (if getByte bytes 1 &&& 0x2 ≠ 0 then 2 else 0)
              + (if getByte bytes 1 &&& 0x4 ≠ 0 then 1 else 0)
              + (if getByte bytes 1 &&& 0x8 ≠ 0 then 5 else 0)
              + (if getByte bytes 1 &&& 0x10 ≠ 0 then 2 else 0)
              + (if getByte bytes 1 &&& 0x20 ≠ 0 then 2 else 0) + 2) : ℚ) / 256 * 100))
          else none
        powerUsedCount := none
        powerSourcedCount := none
        powerUsedPerHour := none
        powerSourcedPerHour := none
        aqi := none } := by
  ext1 <;>
  simp only [decode15, stepSoilSigned_fst, stepSoilSigned_snd, stepWaterSigned_fst,
    stepWaterSigned_snd, stepLux_fst, stepLux_snd, stepTPH_fst, stepTPH_snd,
    stepBoot_fst, stepBoot_snd, stepVBus_fst, stepVBus_snd, stepVBat_fst, stepVBat_snd,
    apply_ite DecodedRecord.vBat, apply_ite DecodedRecord.vBus,
    apply_ite DecodedRecord.boot, apply_ite DecodedRecord.tempC,
    apply_ite DecodedRecord.error, apply_ite DecodedRecord.p,
    apply_ite DecodedRecord.rh, apply_ite DecodedRecord.tDewC,
    apply_ite DecodedRecord.lux, apply_ite DecodedRecord.tWater,
    apply_ite DecodedRecord.tSoil, apply_ite DecodedRecord.rhSoil,
    apply_ite DecodedRecord.tSoilDew, apply_ite DecodedRecord.powerUsedCount,
    apply_ite DecodedRecord.powerSourcedCount, apply_ite DecodedRecord.powerUsedPerHour,
    apply_ite DecodedRecord.powerSourcedPerHour, apply_ite DecodedRecord.aqi, ite_self]

lemma decode11_fst (dew : ℚ → ℚ → α) (bytes : List ℕ) :
    (decode11 dew bytes).1 =
      { vBat := if getByte bytes 1 &&& 0x1 ≠ 0 then
          some ((toInt16 (u16 bytes 2) : ℚ) / 4096) else none
        vBus := if getByte bytes 1 &&& 0x2 ≠ 0 then
          some ((toInt16 (u16 bytes (2 + (if getByte bytes 1 &&& 0x1 ≠ 0 then 2 else 0))) : ℚ) / 4096)
          else none
        boot := none
        tempC := if getByte bytes 1 &&& 0x4 ≠ 0 then
          some ((toInt16 (u16 bytes (2 + (if getByte bytes 1 &&& 0x1 ≠ 0 then 2 else 0)
            + (if getByte bytes 1 &&& 0x2 ≠ 0 then 2 else 0))) : ℚ) / 256) else none
        error := if getByte bytes 1 &&& 0x4 ≠ 0 then some "none" else none
        p := if getByte bytes 1 &&& 0x4 ≠ 0 then
          some ((u16 bytes (2 + (if getByte bytes 1 &&& 0x1 ≠ 0 then 2 else 0)
            + (if getByte bytes 1 &&& 0x2 ≠ 0 then 2 else 0) + 2) : ℚ) * 4 / 100) else none
        rh := if getByte bytes 1 &&& 0x4 ≠ 0 then
          some ((getByte bytes (2 + (if getByte bytes 1 &&& 0x1 ≠ 0 then 2 else 0)
            + (if getByte bytes 1 &&& 0x2 ≠ 0 then 2 else 0) + 4) : ℚ) / 256 * 100) else none
        tDewC := if getByte bytes 1 &&& 0x4 ≠ 0 then
          some (dew
            ((toInt16 (u16 bytes (2 + (if getByte bytes 1 &&& 0x1 ≠ 0 then 2 else 0)
              + (if getByte bytes 1 &&& 0x2 ≠ 0 then 2 else 0))) : ℚ) / 256)
            ((getByte bytes (2 + (if getByte bytes 1 &&& 0x1 ≠ 0 then 2 else 0)
              + (if getByte bytes 1 &&& 0x2 ≠ 0 then 2 else 0) + 4) : ℚ) / 256 * 100))
          else none
        lux := if getByte bytes 1 &&& 0x8 ≠ 0 then
          some ((u16 bytes (2 + (if getByte bytes 1 &&& 0x1 ≠ 0 then 2 else 0)
            + (if getByte bytes 1 &&& 0x2 ≠ 0 then 2 else 0)
            + (if getByte bytes 1 &&& 0x4 ≠ 0 then 5 else 0)) : ℚ)) else none
        tWater := if getByte bytes 1 &&& 0x10 ≠ 0 then
          some ((u16 bytes (2 + (if getByte bytes 1 &&& 0x1 ≠ 0 then 2 else 0)
            + (if getByte bytes 1 &&& 0x2 ≠ 0 then 2 else 0)
            + (if getByte bytes 1 &&& 0x4 ≠ 0 then 5 else 0)
            + (if getByte bytes 1 &&& 0x8 ≠ 0 then 2 else 0)) : ℚ) / 256) else none
        tSoil := if getByte bytes 1 &&& 0x20 ≠ 0 then
          some ((u16 bytes (2 + (if getByte bytes 1 &&& 0x1 ≠ 0 then 2 else 0)
            + (if getByte bytes 1 &&& 0x2 ≠ 0 then 2 else 0)
            + (if getByte bytes 1 &&& 0x4 ≠ 0 then 5 else 0)
            + (if getByte bytes 1 &&& 0x8 ≠ 0 then 2 else 0)
            + (if getByte bytes 1 &&& 0x10 ≠ 0 then 2 else 0)) : ℚ) / 256) else none
        rhSoil := if getByte bytes 1 &&& 0x20 ≠ 0 then
          some ((getByte bytes (2 + (if getByte bytes 1 &&& 0x1 ≠ 0 then 2 else 0)
            + (if getByte bytes 1 &&& 0x2 ≠ 0 then 2 else 0)
            + (if getByte bytes 1 &&& 0x4 ≠ 0 then 5 else 0)
            + (if getByte bytes 1 &&& 0x8 ≠ 0 then 2 else 0)
            + (if getByte bytes 1 &&& 0x10 ≠ 0 then 2 else 0) + 2) : ℚ) / 256 * 100) else none
        tSoilDew := if getByte bytes 1 &&& 0x20 ≠ 0 then
          some (dew
            ((u16 bytes (2 + (if getByte bytes 1 &&& 0x1 ≠ 0 then 2 else 0)
              + (if getByte bytes 1 &&& 0x2 ≠ 0 then 2 else 0)
              + (if getByte bytes 1 &&& 0x4 ≠ 0 then 5 else 0)
              + (if getByte bytes 1 &&& 0x8 ≠ 0 then 2 else 0)
              + (if getByte bytes 1 &&& 0x10 ≠ 0 then 2 else 0)) : ℚ) / 256)
            ((getByte bytes (2 + (if getByte bytes 1 &&& 0x1 ≠ 0 then 2 else 0)
              + (if getByte bytes 1 &&& 0x2 ≠ 0 then 2 else 0)
              + (if getByte bytes 1 &&& 0x4 ≠ 0 then 5 else 0)
              + (if getByte bytes 1 &&& 0x8 ≠ 0 then 2 else 0)
              + (if getByte bytes 1 &&& 0x10 ≠ 0 then 2 else 0) + 2) : ℚ) / 256 * 100))
          else none
        powerUsedCount := none
        powerSourcedCount := none
        powerUsedPerHour := none
        powerSourcedPerHour := none
        aqi := none } := by
  ext1 <;>
  simp only [decode11, stepSoilUnsigned_fst, stepSoilUnsigned_snd, stepWaterUnsigned_fst,
    stepWaterUnsigned_snd, stepLux_fst, stepLux_snd, stepTPH_fst, stepTPH_snd,
    stepVBus_fst, stepVBus_snd, stepVBat_fst, stepVBat_snd,
    apply_ite DecodedRecord.vBat, apply_ite DecodedRecord.vBus,
    apply_ite DecodedRecord.boot, apply_ite DecodedRecord.tempC,
    apply_ite DecodedRecord.error, apply_ite DecodedRecord.p,
    apply_ite DecodedRecord.rh, apply_ite DecodedRecord.tDewC,
    apply_ite DecodedRecord.lux, apply_ite DecodedRecord.tWater,
    apply_ite DecodedRecord.tSoil, apply_ite DecodedRecord.rhSoil,
    apply_ite DecodedRecord.tSoilDew, apply_ite DecodedRecord.powerUsedCount,
    apply_ite DecodedRecord.powerSourcedCount, apply_ite DecodedRecord.powerUsedPerHour,
    apply_ite DecodedRecord.powerSourcedPerHour, apply_ite DecodedRecord.aqi, ite_self]

lemma decode17_fst (dew : ℚ → ℚ → α) (bytes : List ℕ) :
    (decode17 dew bytes).1 =
      { vBat := if getByte bytes 1 &&& 0x1 ≠ 0 then
          some ((toInt16 (u16 bytes 2) : ℚ) / 4096) else none
        vBus := if getByte bytes 1 &&& 0x2 ≠ 0 then
          some ((toInt16 (u16 bytes (2 + (if getByte bytes 1 &&& 0x1 ≠ 0 then 2 else 0))) : ℚ) / 4096)
          else none
        boot := if getByte bytes 1 &&& 0x4 ≠ 0 then
          some ((getByte bytes (2 + (if getByte bytes 1 &&& 0x1 ≠ 0 then 2 else 0)
            + (if getByte bytes 1 &&& 0x2 ≠ 0 then 2 else 0)) : ℚ)) else none
        tempC := if getByte bytes 1 &&& 0x8 ≠ 0 then
          some ((toInt16 (u16 bytes (2 + (if getByte bytes 1 &&& 0x1 ≠ 0 then 2 else 0)
            + (if getByte bytes 1 &&& 0x2 ≠ 0 then 2 else 0)
            + (if getByte bytes 1 &&& 0x4 ≠ 0 then 1 else 0))) : ℚ) / 256) else none
        error := if getByte bytes 1 &&& 0x8 ≠ 0 then some "none" else none
        p := if getByte bytes 1 &&& 0x8 ≠ 0 then
          some ((u16 bytes (2 + (if getByte bytes 1 &&& 0x1 ≠ 0 then 2 else 0)
            + (if getByte bytes 1 &&& 0x2 ≠ 0 then 2 else 0)
            + (if getByte bytes 1 &&& 0x4 ≠ 0 then 1 else 0) + 2) : ℚ) * 4 / 100) else none
        rh := if getByte bytes 1 &&& 0x8 ≠ 0 then
          some ((getByte bytes (2 + (if getByte bytes 1 &&& 0x1 ≠ 0 then 2 else 0)
            + (if getByte bytes 1 &&& 0x2 ≠ 0 then 2 else 0)
            + (if getByte bytes 1 &&& 0x4 ≠ 0 then 1 else 0) + 4) : ℚ) / 256 * 100) else none
        tDewC := if getByte bytes 1 &&& 0x8 ≠ 0 then
          some (dew
            ((toInt16 (u16 bytes (2 + (if getByte bytes 1 &&& 0x1 ≠ 0 then 2 else 0)
              + (if getByte bytes 1 &&& 0x2 ≠ 0 then 2 else 0)
              + (if getByte bytes 1 &&& 0x4 ≠ 0 then 1 else 0))) : ℚ) / 256)
            ((getByte bytes (2 + (if getByte bytes 1 &&& 0x1 ≠ 0 then 2 else 0)
              + (if getByte bytes 1 &&& 0x2 ≠ 0 then 2 else 0)
              + (if getByte bytes 1 &&& 0x4 ≠ 0 then 1 else 0) + 4) : ℚ) / 256 * 100))
          else none
        lux := if getByte bytes 1 &&& 0x10 ≠ 0 then
          some ((u16 bytes (2 + (if getByte bytes 1 &&& 0x1 ≠ 0 then 2 else 0)
            + (if getByte bytes 1 &&& 0x2 ≠ 0 then 2 else 0)
            + (if getByte bytes 1 &&& 0x4 ≠ 0 then 1 else 0)
            + (if getByte bytes 1 &&& 0x8 ≠ 0 then 5 else 0)) : ℚ)) else none
        tWater := none
        tSoil := none
        rhSoil := none
        tSoilDew := none
        powerUsedCount := none
        powerSourcedCount := none
        powerUsedPerHour := none
        powerSourcedPerHour := none
        aqi := if getByte bytes 1 &&& 0x20 ≠ 0 then
          some (uflt16 (u16 bytes (2 + (if getByte bytes 1 &&& 0x1 ≠ 0 then 2 else 0)
            + (if getByte bytes 1 &&& 0x2 ≠ 0 then 2 else 0)
            + (if getByte bytes 1 &&& 0x4 ≠ 0 then 1 else 0)
            + (if getByte bytes 1 &&& 0x8 ≠ 0 then 5 else 0)
            + (if getByte bytes 1 &&& 0x10 ≠ 0 then 2 else 0))) * 512) else none } := by
  ext1 <;>
  simp only [decode17, stepAqi_fst, stepAqi_snd, stepLux_fst, stepLux_snd,
    stepTPH_fst, stepTPH_snd, stepBoot_fst, stepBoot_snd,
    stepVBus_fst, stepVBus_snd, stepVBat_fst, stepVBat_snd,
    apply_ite DecodedRecord.vBat, apply_ite DecodedRecord.vBus,
    apply_ite DecodedRecord.boot, apply_ite DecodedRecord.tempC,
    apply_ite DecodedRecord.error, apply_ite DecodedRecord.p,
    apply_ite DecodedRecord.rh, apply_ite DecodedRecord.tDewC,
    apply_ite DecodedRecord.lux, apply_ite DecodedRecord.tWater,
    apply_ite DecodedRecord.tSoil, apply_ite DecodedRecord.rhSoil,
    apply_ite DecodedRecord.tSoilDew, apply_ite DecodedRecord.powerUsedCount,
    apply_ite DecodedRecord.powerSourcedCount, apply_ite DecodedRecord.powerUsedPerHour,
    apply_ite DecodedRecord.powerSourcedPerHour, apply_ite DecodedRecord.aqi, ite_self]

/-! ## Cursor monotonicity -/

lemma stepVBat_mono (bytes : List ℕ) (s : DecodedRecord α × ℕ) :
    s.2 ≤ (stepVBat bytes s).2 := by
  rw [stepVBat_snd]; exact Nat.le_add_right _ _

lemma stepVBus_mono (bytes : List ℕ) (s : DecodedRecord α × ℕ) :
    s.2 ≤ (stepVBus bytes s).2 := by
  rw [stepVBus_snd]; exact Nat.le_add_right _ _

lemma stepBoot_mono (bytes : List ℕ) (s : DecodedRecord α × ℕ) :
    s.2 ≤ (stepBoot bytes s).2 := by
  rw [stepBoot_snd]; exact Nat.le_add_right _ _

lemma stepTPH_mono (bit : ℕ) (dew : ℚ → ℚ → α) (bytes : List ℕ) (s : DecodedRecord α × ℕ) :
    s.2 ≤ (stepTPH bit dew bytes s).2 := by
  rw [stepTPH_snd]; exact Nat.le_add_right _ _

lemma stepLux_mono (bit : ℕ) (bytes : List ℕ) (s : DecodedRecord α × ℕ) :
    s.2 ≤ (stepLux bit bytes s).2 := by
  rw [stepLux_snd]; exact Nat.le_add_right _ _

lemma stepPowerCount_mono (bytes : List ℕ) (s : DecodedRecord α × ℕ) :
    s.2 ≤ (stepPowerCount bytes s).2 := by
  rw [stepPowerCount_snd]; exact Nat.le_add_right _ _

lemma stepPowerRate_mono (bytes : List ℕ) (s : DecodedRecord α × ℕ) :
    s.2 ≤ (stepPowerRate bytes s).2 := by
  rw [stepPowerRate_snd]; exact Nat.le_add_right _ _

lemma stepWaterSigned_mono (bytes : List ℕ) (s : DecodedRecord α × ℕ) :
    s.2 ≤ (stepWaterSigned bytes s).2 := by
  rw [stepWaterSigned_snd]; exact Nat.le_add_right _ _

lemma stepWaterUnsigned_mono (bytes : List ℕ) (s : DecodedRecord α × ℕ) :
    s.2 ≤ (stepWaterUnsigned bytes s).2 := by
  rw [stepWaterUnsigned_snd]; exact Nat.le_add_right _ _

lemma stepSoilSigned_mono (dew : ℚ → ℚ → α) (bytes : List ℕ) (s : DecodedRecord α × ℕ) :
    s.2 ≤ (stepSoilSigned dew bytes s).2 := by
  rw [stepSoilSigned_snd]; exact Nat.le_add_right _ _

lemma stepSoilUnsigned_mono (dew : ℚ → ℚ → α) (bytes : List ℕ) (s : DecodedRecord α × ℕ) :
    s.2 ≤ (stepSoilUnsigned dew bytes s).2 := by
  rw [stepSoilUnsigned_snd]; exact Nat.le_add_right _ _

lemma stepAqi_mono (bytes : List ℕ) (s : DecodedRecord α × ℕ) :
    s.2 ≤ (stepAqi bytes s).2 := by
  rw [stepAqi_snd]; exact Nat.le_add_right _ _

lemma trace14_chain (bytes : List ℕ) : List.Chain' (· ≤ ·) (trace14 bytes) := by
  simp only [trace14, List.chain'_cons, List.chain'_singleton, and_true]
  refine ⟨by norm_num, ?_, ?_, ?_, ?_, ?_, ?_, ?_⟩
  · exact stepVBat_mono bytes ({}, 2)
  · exact stepVBus_mono _ _
  · exact stepBoot_mono _ _
  · exact stepTPH_mono _ _ _ _
  · exact stepLux_mono _ _ _
  · exact stepPowerCount_mono _ _
  · exact stepPowerRate_mono _ _

lemma trace15_chain (bytes : List ℕ) : List.Chain' (· ≤ ·) (trace15 bytes) := by
  simp only [trace15, List.chain'_cons, List.chain'_singleton, and_true]
  refine ⟨by norm_num, ?_, ?_, ?_, ?_, ?_, ?_, ?_⟩
  · exact stepVBat_mono bytes ({}, 2)
  · exact stepVBus_mono _ _
  · exact stepBoot_mono _ _
  · exact stepTPH_mono _ _ _ _
  · exact stepLux_mono _ _ _
  · exact stepWaterSigned_mono _ _
  · exact stepSoilSigned_mono _ _ _

lemma trace11_chain (bytes : List ℕ) : List.Chain' (· ≤ ·) (trace11 bytes) := by
  simp only [trace11, List.chain'_cons, List.chain'_singleton, and_true]
  refine ⟨by norm_num, ?_, ?_, ?_, ?_, ?_, ?_⟩
  · exact stepVBat_mono bytes ({}, 2)
  · exact stepVBus_mono _ _
  · exact stepTPH_mono _ _ _ _
  · exact stepLux_mono _ _ _
  · exact stepWaterUnsigned_mono _ _
  · exact stepSoilUnsigned_mono _ _ _

lemma trace17_chain (bytes : List ℕ) : List.Chain' (· ≤ ·) (trace17 bytes) := by
  simp only [trace17, List.chain'_cons, List.chain'_singleton, and_true]
  refine ⟨by norm_num, ?_, ?_, ?_, ?_, ?_, ?_⟩
  · exact stepVBat_mono bytes ({}, 2)
  · exact stepVBus_mono _ _
  · exact stepBoot_mono _ _
  · exact stepTPH_mono _ _ _ _
  · exact stepLux_mono _ _ _
  · exact stepAqi_mono _ _

lemma le_getLastD_of_chain (l : List ℕ) (h : List.Chain' (· ≤ ·) l) :
    ∀ c ∈ l, c ≤ l.getLastD 0 := by
  induction l with
  | nil => intro c hc; simp at hc
  | cons a t ih =>
    intro c hc
    cases t with
    | nil =>
      simp at hc
      simp [hc, List.getLastD]
    | cons b t2 =>
      rw [List.chain'_cons] at h
      have hlast : (a :: b :: t2).getLastD 0 = (b :: t2).getLastD 0 := by
        simp [List.getLastD_cons]
      rcases List.mem_cons.mp hc with rfl | hc2
      · rw [hlast]
        exact le_trans h.1 (ih h.2 b (by simp))
      · rw [hlast]
        exact ih h.2 c hc2

/-! ## Dispatch lemmas -/

lemma Decoder_eq_14 (bytes : List ℕ) (h : getByte bytes 0 = 0x14) :
    Decoder bytes 1 = (decode14 dewQ bytes).1 := by
  simp [Decoder, DecoderGen, dispatch, h]

lemma Decoder_eq_15 (bytes : List ℕ) (h : getByte bytes 0 = 0x15) :
    Decoder bytes 1 = (decode15 dewQ bytes).1 := by
  simp [Decoder, DecoderGen, dispatch, h]

lemma Decoder_eq_11 (bytes : List ℕ) (h : getByte bytes 0 = 0x11) :
    Decoder bytes 1 = (decode11 dewQ bytes).1 := by
  simp [Decoder, DecoderGen, dispatch, h]

lemma Decoder_eq_17 (bytes : List ℕ) (h : getByte bytes 0 = 0x17) :
    Decoder bytes 1 = (decode17 dewQ bytes).1 := by
  simp [Decoder, DecoderGen, dispatch, h]

/-! ## Claim theorems -/

/-- C1: in each of the four recognized formats on channel 1, when flag
bit 0x01 is set the `vBat` field is the big-endian 16-bit value at
offset 2, reinterpreted as signed two's-complement (minus 65536 when bit
15 is set), divided by 4096; the same rule gives `vBus` under bit 0x02
at the following offset.  Raw `0x1800` scales to `1.5` and raw `0xF800`
to `-0.5`. -/
theorem c1_voltage_signed_scaling (bytes : List ℕ)
    (hfmt : getByte bytes 0 = 0x11 ∨ getByte bytes 0 = 0x14 ∨
            getByte bytes 0 = 0x15 ∨ getByte bytes 0 = 0x17) :
    ((getByte bytes 1 &&& 0x1 ≠ 0 →
        (Decoder bytes 1).vBat = some ((toInt16 (u16 bytes 2) : ℚ) / 4096)) ∧
     (getByte bytes 1 &&& 0x2 ≠ 0 →
        (Decoder bytes 1).vBus = some ((toInt16 (u16 bytes
          (2 + (if getByte bytes 1 &&& 0x1 ≠ 0 then 2 else 0))) : ℚ) / 4096))) ∧
    (∀ v : ℕ, toInt16 v = if v &&& 0x8000 ≠ 0 then (v : ℤ) - 65536 else (v : ℤ)) ∧
    (toInt16 0x1800 : ℚ) / 4096 = 1.5 ∧
    (toInt16 0xF800 : ℚ) / 4096 = -0.5 ∧
    (Decoder [0x14, 0x01, 0x18, 0x00] 1).vBat = some (1.5 : ℚ) ∧
    (Decoder [0x14, 0x01, 0xF8, 0x00] 1).vBat = some (-0.5 : ℚ) := by
  refine ⟨⟨?_, ?_⟩, ?_, ?_, ?_, ?_, ?_⟩
  · intro hb
    rcases hfmt with h | h | h | h
    · rw [Decoder_eq_11 bytes h, decode11_fst, if_pos hb]
    · rw [Decoder_eq_14 bytes h, decode14_fst, if_pos hb]
    · rw [Decoder_eq_15 bytes h, decode15_fst, if_pos hb]
    · rw [Decoder_eq_17 bytes h, decode17_fst, if_pos hb]
  · intro hb
    rcases hfmt with h | h | h | h
    · rw [Decoder_eq_11 bytes h, decode11_fst, if_pos hb]
    · rw [Decoder_eq_14 bytes h, decode14_fst, if_pos hb]
    · rw [Decoder_eq_15 bytes h, decode15_fst, if_pos hb]
    · rw [Decoder_eq_17 bytes h, decode17_fst, if_pos hb]
  · intro v
    unfold toInt16
    split <;> [ring; rfl]
  · rw [show toInt16 0x1800 = 6144 from by decide]
    norm_num
  · rw [show toInt16 0xF800 = -2048 from by decide]
    norm_num
  · rw [Decoder_eq_14 _ (by rfl), decode14_fst,
      if_pos (show getByte [0x14, 0x01, 0x18, 0x00] 1 &&& 0x1 ≠ 0 from by decide),
      show toInt16 (u16 [0x14, 0x01, 0x18, 0x00] 2) = 6144 from by decide]
    norm_num
  · rw [Decoder_eq_14 _ (by rfl), decode14_fst,
      if_pos (show getByte [0x14, 0x01, 0xF8, 0x00] 1 &&& 0x1 ≠ 0 from by decide),
      show toInt16 (u16 [0x14, 0x01, 0xF8, 0x00] 2) = -2048 from by decide]
    norm_num

/-- C1 witness: a payload of format 0x14 with flag bits 0x01 and 0x02 set
exercises both conclusions. -/
theorem c1_voltage_signed_scaling_witness :
    (Decoder [0x14, 0x03, 0x18, 0x00, 0xF8, 0x00] 1).vBat =
      some ((toInt16 (u16 [0x14, 0x03, 0x18, 0x00, 0xF8, 0x00] 2) : ℚ) / 4096) ∧
    (Decoder [0x14, 0x03, 0x18, 0x00, 0xF8, 0x00] 1).vBus =
      some ((toInt16 (u16 [0x14, 0x03, 0x18, 0x00, 0xF8, 0x00]
        (2 + (if getByte [0x14, 0x03, 0x18, 0x00, 0xF8, 0x00] 1 &&& 0x1 ≠ 0
              then 2 else 0))) : ℚ) / 4096) := by
  have h := c1_voltage_signed_scaling [0x14, 0x03, 0x18, 0x00, 0xF8, 0x00] (by decide)
  exact ⟨h.1.1 (by decide), h.1.2 (by decide)⟩

/-- The clamp of the source (`h <= 0.01` floors to 0.01, `h > 1.0` caps
to 1.0, otherwise `h` itself) is the clamp of `h` into `[0.01, 1.0]`. -/
lemma clamp_eq_max_min (x : ℝ) :
    (if x ≤ 0.01 then (0.01 : ℝ) else if 1.0 < x then 1.0 else x) =
      max 0.01 (min 1.0 x) := by
  rcases le_or_lt x 0.01 with h | h
  · rw [if_pos h, min_eq_right (le_trans h (by norm_num)), max_eq_left h]
  · rw [if_neg (not_le.mpr h)]
    rcases lt_or_le 1.0 x with h2 | h2
    · rw [if_pos h2, min_eq_left (le_of_lt h2), max_eq_right (by norm_num)]
    · rw [if_neg (not_lt.mpr h2), min_eq_right h2, max_eq_right (le_of_lt h)]

/-- `dewpoint` in closed form: clamp, then the Magnus formula. -/
lemma dewpoint_clamp_formula (t rh : ℝ) :
    dewpoint t rh =
      243.04 * (Real.log (max 0.01 (min 1.0 (rh / 100))) + t * 17.625 / (t + 243.04)) /
        (17.625 - Real.log (max 0.01 (min 1.0 (rh / 100))) - t * 17.625 / (t + 243.04)) := by
  simp only [dewpoint, clamp_eq_max_min]

/-- The numeric pin: the dew point at the decoded test-vector values
agrees with the reference value to better than `1 / 100000`.  The
logarithm is bounded through the Taylor series of `log (1 - x)` at
`x = 61 / 256` with 12 terms. -/
lemma dewpoint_value_bound :
    |dewpoint 21.61328125 76.171875 - 17.236466758309017| < 1 / 100000 := by
  have hx : |(61 : ℝ)/256| = 61/256 := abs_of_pos (by norm_num)
  have hlog := Real.abs_log_sub_add_sum_range_le (x := (61 : ℝ)/256) (by rw [hx]; norm_num) 12
  rw [hx, show (1 : ℝ) - 61/256 = (195 : ℝ)/256 from by norm_num] at hlog
  norm_num [Finset.sum_range_succ] at hlog
  rw [abs_le] at hlog
  rw [dewpoint_clamp_formula,
    show ((76.171875 : ℝ)/100) = (195 : ℝ)/256 from by norm_num,
    min_eq_right (by norm_num : (195 : ℝ)/256 ≤ 1.0),
    max_eq_right (by norm_num : (0.01 : ℝ) ≤ (195 : ℝ)/256),
    show (21.61328125 : ℝ) * 17.625 / (21.61328125 + 243.04) = (19503825 : ℝ)/13550248
      from by norm_num]
  have hL0 : Real.log ((195 : ℝ)/256) < 0 := Real.log_neg (by norm_num) (by norm_num)
  have hD : (0 : ℝ) < 17.625 - Real.log ((195 : ℝ)/256) - 19503825/13550248 := by
    linarith
  have h1 : (17.236466758309017 - 1/100000 : ℝ) *
      (17.625 - Real.log ((195 : ℝ)/256) - 19503825/13550248) <
      243.04 * (Real.log ((195 : ℝ)/256) + 19503825/13550248) := by
    linarith [hlog.1, hlog.2]
  have h2 : 243.04 * (Real.log ((195 : ℝ)/256) + 19503825/13550248) <
      (17.236466758309017 + 1/100000 : ℝ) *
      (17.625 - Real.log ((195 : ℝ)/256) - 19503825/13550248) := by
    linarith [hlog.1, hlog.2]
  rw [abs_lt]
  constructor
  · have := (lt_div_iff₀ hD).mpr h1
    linarith
  · have := (div_lt_iff₀ hD).mpr h2
    linarith

/-- A field group writes `some (f x y)` exactly when it writes `some x`
and `some y`, so the derived slot is the `Option.map₂` of the two
sources. -/
lemma map₂_ite_some {β γ δ : Type} (f : β → γ → δ) (c : Prop) [Decidable c] (x : β) (y : γ) :
    (if c then some (f x y) else none) =
      Option.map₂ f (if c then some x else none) (if c then some y else none) := by
  split <;> simp [Option.map₂]

/-- C5: the dew-point function clamps `h = rh / 100` into `[0.01, 1.0]`
and returns `c1 * (ln h + t * c2 / (t + c1)) / (c2 - ln h - t * c2 / (t + c1))`
with `c1 = 243.04`, `c2 = 17.625`; at `(21.61328125, 76.171875)` its
value agrees with `17.236466758309017` to better than `1 / 100000`
(more than 6 significant digits); and the same single function produces
both `tDewC` (from `tempC`, `rh`) and `tSoilDew` (from `tSoil`,
`rhSoil`) in every format. -/
theorem c5_dewpoint_shared (t rh : ℝ) :
    (dewpoint t rh =
      243.04 * (Real.log (max 0.01 (min 1.0 (rh / 100))) + t * 17.625 / (t + 243.04)) /
        (17.625 - Real.log (max 0.01 (min 1.0 (rh / 100))) - t * 17.625 / (t + 243.04))) ∧
    |dewpoint 21.61328125 76.171875 - 17.236466758309017| < 1 / 100000 ∧
    (∀ bytes port,
      (Decoder bytes port).tDewC =
        Option.map₂ dewQ (Decoder bytes port).tempC (Decoder bytes port).rh ∧
      (Decoder bytes port).tSoilDew =
        Option.map₂ dewQ (Decoder bytes port).tSoil (Decoder bytes port).rhSoil) := by
  refine ⟨dewpoint_clamp_formula t rh, dewpoint_value_bound, fun bytes port => ?_⟩
  by_cases hp : port = 1
  · subst hp
    by_cases h14 : getByte bytes 0 = 0x14
    · rw [Decoder_eq_14 bytes h14, decode14_fst]
      exact ⟨map₂_ite_some dewQ _ _ _, by simp⟩
    · by_cases h15 : getByte bytes 0 = 0x15
      · rw [Decoder_eq_15 bytes h15, decode15_fst]
        exact ⟨map₂_ite_some dewQ _ _ _, map₂_ite_some dewQ _ _ _⟩
      · by_cases h11 : getByte bytes 0 = 0x11
        · rw [Decoder_eq_11 bytes h11, decode11_fst]
          exact ⟨map₂_ite_some dewQ _ _ _, map₂_ite_some dewQ _ _ _⟩
        · by_cases h17 : getByte bytes 0 = 0x17
          · rw [Decoder_eq_17 bytes h17, decode17_fst]
            exact ⟨map₂_ite_some dewQ _ _ _, by simp⟩
          · simp [Decoder, DecoderGen, dispatch, h14, h15, h11, h17]
  · simp [Decoder, DecoderGen, hp]

/-- C6: any channel other than 1 yields the empty record, and channel 1
with a leading byte other than 0x11/0x14/0x15/0x17 yields the empty
record. -/
theorem c6_unrecognized_empty (bytes : List ℕ) (port : ℕ) :
    (port ≠ 1 → Decoder bytes port = {}) ∧
    (getByte bytes 0 ≠ 0x11 ∧ getByte bytes 0 ≠ 0x14 ∧
     getByte bytes 0 ≠ 0x15 ∧ getByte bytes 0 ≠ 0x17 →
      Decoder bytes 1 = {}) := by
  constructor
  · intro h
    simp [Decoder, DecoderGen, h]
  · rintro ⟨h11, h14, h15, h17⟩
    simp [Decoder, DecoderGen, dispatch, h11, h14, h15, h17]

/-- C6 witness: channel 2, and an unrecognized format byte 0x99 on
channel 1. -/
theorem c6_unrecognized_empty_witness :
    Decoder [0x14, 0x01, 0x18, 0x00] 2 = {} ∧ Decoder [0x99, 0x01] 1 = {} :=
  ⟨(c6_unrecognized_empty [0x14, 0x01, 0x18, 0x00] 2).1 (by decide),
   (c6_unrecognized_empty [0x99, 0x01] 1).2 (by decide)⟩

/-- C8: for each recognized format, the `error` key is present exactly
when the temp/pressure/RH flag bit (0x8 for formats 0x14/0x15/0x17, 0x4
for format 0x11) is set, and its value is then the literal `"none"`. -/
theorem c8_error_key_iff_tph (bytes : List ℕ) :
    (getByte bytes 0 = 0x14 →
      (Decoder bytes 1).error =
        if getByte bytes 1 &&& 0x8 ≠ 0 then some "none" else none) ∧
    (getByte bytes 0 = 0x15 →
      (Decoder bytes 1).error =
        if getByte bytes 1 &&& 0x8 ≠ 0 then some "none" else none) ∧
    (getByte bytes 0 = 0x11 →
      (Decoder bytes 1).error =
        if getByte bytes 1 &&& 0x4 ≠ 0 then some "none" else none) ∧
    (getByte bytes 0 = 0x17 →
      (Decoder bytes 1).error =
        if getByte bytes 1 &&& 0x8 ≠ 0 then some "none" else none) := by
  refine ⟨fun h => ?_, fun h => ?_, fun h => ?_, fun h => ?_⟩
  · rw [Decoder_eq_14 bytes h, decode14_fst]
  · rw [Decoder_eq_15 bytes h, decode15_fst]
  · rw [Decoder_eq_11 bytes h, decode11_fst]
  · rw [Decoder_eq_17 bytes h, decode17_fst]

/-- C8 witness: a format 0x14 payload with the temp/pressure/RH bit set. -/
theorem c8_error_key_iff_tph_witness :
    (Decoder [0x14, 0x0D, 0xF8, 0x00, 0x42, 0x17, 0x80, 0x59, 0x35, 0x80] 1).error =
      (if getByte [0x14, 0x0D, 0xF8, 0x00, 0x42, 0x17, 0x80, 0x59, 0x35, 0x80] 1 &&& 0x8 ≠ 0
       then some "none" else none) :=
  (c8_error_key_iff_tph [0x14, 0x0D, 0xF8, 0x00, 0x42, 0x17, 0x80, 0x59, 0x35, 0x80]).1
    (by decide)

/-- C2 counterexample: the claim says format 0x11's primary
temp/pressure/RH group reads its raw temperature as unsigned, but on the
payload `[0x11, 0x04, 0x80, 0x00, 0x00, 0x00, 0x00]` (bit 0x04 set, raw
temperature 0x8000) the decoder sign-extends and yields `tempC = -128`,
not `0x8000 / 256 = 128`. -/
theorem c2_unsigned_temp_counterexample :
    (Decoder [0x11, 0x04, 0x80, 0x00, 0x00, 0x00, 0x00] 1).tempC = some (-128 : ℚ) ∧
    (Decoder [0x11, 0x04, 0x80, 0x00, 0x00, 0x00, 0x00] 1).tempC ≠
      some ((u16 [0x11, 0x04, 0x80, 0x00, 0x00, 0x00, 0x00] 2 : ℚ) / 256) := by
  have he : (Decoder [0x11, 0x04, 0x80, 0x00, 0x00, 0x00, 0x00] 1).tempC = some (-128 : ℚ) := by
    rw [Decoder_eq_11 _ (by decide), decode11_fst,
      if_pos (show getByte [0x11, 0x04, 0x80, 0x00, 0x00, 0x00, 0x00] 1 &&& 0x4 ≠ 0 from by decide),
      show toInt16 (u16 [0x11, 0x04, 0x80, 0x00, 0x00, 0x00, 0x00]
        (2 + (if getByte [0x11, 0x04, 0x80, 0x00, 0x00, 0x00, 0x00] 1 &&& 0x1 ≠ 0 then 2 else 0)
           + (if getByte [0x11, 0x04, 0x80, 0x00, 0x00, 0x00, 0x00] 1 &&& 0x2 ≠ 0 then 2 else 0))) = -32768
        from by decide]
    norm_num
  refine ⟨he, ?_⟩
  rw [he, show u16 [0x11, 0x04, 0x80, 0x00, 0x00, 0x00, 0x00] 2 = 32768 from by decide]
  intro hcontra
  rw [Option.some_inj] at hcontra
  norm_num at hcontra

/-- C2 amended: in format 0x11 the one-wire water-temperature group
(bit 0x10) does read its raw 16-bit value as unsigned (`tWater = u16 / 256`,
no sign-extension step), but the primary temp/pressure/RH group (bit 0x04)
applies the same sign extension as formats 0x14/0x15/0x17
(`tempC = int16 / 256`). -/
theorem c2_format11_sign_asymmetry (bytes : List ℕ) (h0 : getByte bytes 0 = 0x11) :
    (getByte bytes 1 &&& 0x10 ≠ 0 →
      (Decoder bytes 1).tWater = some ((u16 bytes
        (2 + (if getByte bytes 1 &&& 0x1 ≠ 0 then 2 else 0)
           + (if getByte bytes 1 &&& 0x2 ≠ 0 then 2 else 0)
           + (if getByte bytes 1 &&& 0x4 ≠ 0 then 5 else 0)
           + (if getByte bytes 1 &&& 0x8 ≠ 0 then 2 else 0)) : ℚ) / 256)) ∧
    (getByte bytes 1 &&& 0x4 ≠ 0 →
      (Decoder bytes 1).tempC = some ((toInt16 (u16 bytes
        (2 + (if getByte bytes 1 &&& 0x1 ≠ 0 then 2 else 0)
           + (if getByte bytes 1 &&& 0x2 ≠ 0 then 2 else 0))) : ℚ) / 256)) := by
  constructor <;> intro hb <;> rw [Decoder_eq_11 bytes h0, decode11_fst, if_pos hb]

/-- C2 witness: a format 0x11 payload with bits 0x04 and 0x10 set. -/
theorem c2_format11_sign_asymmetry_witness :
    (Decoder [0x11, 0x14, 0x80, 0x00, 0x00, 0x00, 0x00, 0x80, 0x00] 1).tWater =
      some ((u16 [0x11, 0x14, 0x80, 0x00, 0x00, 0x00, 0x00, 0x80, 0x00]
        (2 + (if getByte [0x11, 0x14, 0x80, 0x00, 0x00, 0x00, 0x00, 0x80, 0x00] 1 &&& 0x1 ≠ 0 then 2 else 0)
           + (if getByte [0x11, 0x14, 0x80, 0x00, 0x00, 0x00, 0x00, 0x80, 0x00] 1 &&& 0x2 ≠ 0 then 2 else 0)
           + (if getByte [0x11, 0x14, 0x80, 0x00, 0x00, 0x00, 0x00, 0x80, 0x00] 1 &&& 0x4 ≠ 0 then 5 else 0)
           + (if getByte [0x11, 0x14, 0x80, 0x00, 0x00, 0x00, 0x00, 0x80, 0x00] 1 &&& 0x8 ≠ 0 then 2 else 0)) : ℚ) / 256) ∧
    (Decoder [0x11, 0x14, 0x80, 0x00, 0x00, 0x00, 0x00, 0x80, 0x00] 1).tempC =
      some ((toInt16 (u16 [0x11, 0x14, 0x80, 0x00, 0x00, 0x00, 0x00, 0x80, 0x00]
        (2 + (if getByte [0x11, 0x14, 0x80, 0x00, 0x00, 0x00, 0x00, 0x80, 0x00] 1 &&& 0x1 ≠ 0 then 2 else 0)
           + (if getByte [0x11, 0x14, 0x80, 0x00, 0x00, 0x00, 0x00, 0x80, 0x00] 1 &&& 0x2 ≠ 0 then 2 else 0))) : ℚ) / 256) := by
  have h := c2_format11_sign_asymmetry [0x11, 0x14, 0x80, 0x00, 0x00, 0x00, 0x00, 0x80, 0x00] (by decide)
  exact ⟨h.1 (by decide), h.2 (by decide)⟩

/-- C3 counterexample: the claim says format 0x11's soil temperature
(bit 0x20) is decoded as signed int16 / 256, but on the payload
`[0x11, 0x20, 0x80, 0x00, 0x00]` (raw soil temperature 0x8000, bit 15
set) the decoder yields `tSoil = 128`, not the negative value
`toInt16 0x8000 / 256 = -128`. -/
theorem c3_soil_signed_counterexample :
    (Decoder [0x11, 0x20, 0x80, 0x00, 0x00] 1).tSoil = some (128 : ℚ) ∧
    (Decoder [0x11, 0x20, 0x80, 0x00, 0x00] 1).tSoil ≠
      some ((toInt16 (u16 [0x11, 0x20, 0x80, 0x00, 0x00] 2) : ℚ) / 256) := by
  have he : (Decoder [0x11, 0x20, 0x80, 0x00, 0x00] 1).tSoil = some (128 : ℚ) := by
    rw [Decoder_eq_11 _ (by decide), decode11_fst,
      if_pos (show getByte [0x11, 0x20, 0x80, 0x00, 0x00] 1 &&& 0x20 ≠ 0 from by decide),
      show u16 [0x11, 0x20, 0x80, 0x00, 0x00]
        (2 + (if getByte [0x11, 0x20, 0x80, 0x00, 0x00] 1 &&& 0x1 ≠ 0 then 2 else 0)
           + (if getByte [0x11, 0x20, 0x80, 0x00, 0x00] 1 &&& 0x2 ≠ 0 then 2 else 0)
           + (if getByte [0x11, 0x20, 0x80, 0x00, 0x00] 1 &&& 0x4 ≠ 0 then 5 else 0)
           + (if getByte [0x11, 0x20, 0x80, 0x00, 0x00] 1 &&& 0x8 ≠ 0 then 2 else 0)
           + (if getByte [0x11, 0x20, 0x80, 0x00, 0x00] 1 &&& 0x10 ≠ 0 then 2 else 0)) = 32768
        from by decide]
    norm_num
  refine ⟨he, ?_⟩
  rw [he, show toInt16 (u16 [0x11, 0x20, 0x80, 0x00, 0x00] 2) = -32768 from by decide]
  intro hcontra
  rw [Option.some_inj] at hcontra
  norm_num at hcontra

/-- C3 amended: in format 0x11 with bit 0x20 set, the soil temperature is
read as a plain unsigned 16-bit value divided by 256 (the source has no
sign-extension step in this block), so a raw value with bit 15 set yields
a large positive `tSoil`, not a negative one; the accompanying soil RH is
the following byte `/ 256 * 100`. -/
theorem c3_format11_soil_unsigned (bytes : List ℕ) (h0 : getByte bytes 0 = 0x11)
    (hb : getByte bytes 1 &&& 0x20 ≠ 0) :
    (Decoder bytes 1).tSoil = some ((u16 bytes
      (2 + (if getByte bytes 1 &&& 0x1 ≠ 0 then 2 else 0)
         + (if getByte bytes 1 &&& 0x2 ≠ 0 then 2 else 0)
         + (if getByte bytes 1 &&& 0x4 ≠ 0 then 5 else 0)
         + (if getByte bytes 1 &&& 0x8 ≠ 0 then 2 else 0)
         + (if getByte bytes 1 &&& 0x10 ≠ 0 then 2 else 0)) : ℚ) / 256) ∧
    (Decoder bytes 1).rhSoil = some ((getByte bytes
      (2 + (if getByte bytes 1 &&& 0x1 ≠ 0 then 2 else 0)
         + (if getByte bytes 1 &&& 0x2 ≠ 0 then 2 else 0)
         + (if getByte bytes 1 &&& 0x4 ≠ 0 then 5 else 0)
         + (if getByte bytes 1 &&& 0x8 ≠ 0 then 2 else 0)
         + (if getByte bytes 1 &&& 0x10 ≠ 0 then 2 else 0) + 2) : ℚ) / 256 * 100) := by
  rw [Decoder_eq_11 bytes h0, decode11_fst]
  exact ⟨if_pos hb, if_pos hb⟩

/-- C3 witness: format 0x11, only bit 0x20 set, raw soil temperature 0x8000. -/
theorem c3_format11_soil_unsigned_witness :
    (Decoder [0x11, 0x20, 0x80, 0x00, 0x40] 1).tSoil = some ((u16 [0x11, 0x20, 0x80, 0x00, 0x40]
      (2 + (if getByte [0x11, 0x20, 0x80, 0x00, 0x40] 1 &&& 0x1 ≠ 0 then 2 else 0)
         + (if getByte [0x11, 0x20, 0x80, 0x00, 0x40] 1 &&& 0x2 ≠ 0 then 2 else 0)
         + (if getByte [0x11, 0x20, 0x80, 0x00, 0x40] 1 &&& 0x4 ≠ 0 then 5 else 0)
         + (if getByte [0x11, 0x20, 0x80, 0x00, 0x40] 1 &&& 0x8 ≠ 0 then 2 else 0)
         + (if getByte [0x11, 0x20, 0x80, 0x00, 0x40] 1 &&& 0x10 ≠ 0 then 2 else 0)) : ℚ) / 256) ∧
    (Decoder [0x11, 0x20, 0x80, 0x00, 0x40] 1).rhSoil = some ((getByte [0x11, 0x20, 0x80, 0x00, 0x40]
      (2 + (if getByte [0x11, 0x20, 0x80, 0x00, 0x40] 1 &&& 0x1 ≠ 0 then 2 else 0)
         + (if getByte [0x11, 0x20, 0x80, 0x00, 0x40] 1 &&& 0x2 ≠ 0 then 2 else 0)
         + (if getByte [0x11, 0x20, 0x80, 0x00, 0x40] 1 &&& 0x4 ≠ 0 then 5 else 0)
         + (if getByte [0x11, 0x20, 0x80, 0x00, 0x40] 1 &&& 0x8 ≠ 0 then 2 else 0)
         + (if getByte [0x11, 0x20, 0x80, 0x00, 0x40] 1 &&& 0x10 ≠ 0 then 2 else 0) + 2) : ℚ) / 256 * 100) :=
  c3_format11_soil_unsigned [0x11, 0x20, 0x80, 0x00, 0x40] (by decide) (by decide)

/-- The format 0x17 AQI test vector of the source. -/
def vec17 : List ℕ :=
  [0x17, 0x3D, 0x44, 0x60, 0x0D, 0x15, 0x9D, 0x5F, 0xCD, 0xC3, 0x00, 0x00, 0xF9, 0x07]

/-- C4: in format 0x17 with bit 0x20 set, `aqi` is the mini-float decode
of the two big-endian bytes at the cursor — low 12 bits divided by 4096,
times 2 to the power (top 4 bits minus 15) — multiplied by 512; on the
source's test vector this gives `aqi = 288.875` and `boot = 13`. -/
theorem c4_aqi_minifloat (bytes : List ℕ) (h0 : getByte bytes 0 = 0x17) :
    (getByte bytes 1 &&& 0x20 ≠ 0 →
      (Decoder bytes 1).aqi = some (uflt16 (u16 bytes
        (2 + (if getByte bytes 1 &&& 0x1 ≠ 0 then 2 else 0)
           + (if getByte bytes 1 &&& 0x2 ≠ 0 then 2 else 0)
           + (if getByte bytes 1 &&& 0x4 ≠ 0 then 1 else 0)
           + (if getByte bytes 1 &&& 0x8 ≠ 0 then 5 else 0)
           + (if getByte bytes 1 &&& 0x10 ≠ 0 then 2 else 0))) * 512)) ∧
    (∀ raw : ℕ, uflt16 raw =
      (((raw &&& 0xFFF : ℕ) : ℚ) / 4096) * (2 : ℚ) ^ (((raw >>> 12 : ℕ) : ℤ) - 15)) ∧
    (Decoder vec17 1).aqi = some (288.875 : ℚ) ∧
    (Decoder vec17 1).boot = some (13 : ℚ) := by
  refine ⟨fun hb => ?_, fun raw => rfl, ?_, ?_⟩
  · rw [Decoder_eq_17 bytes h0, decode17_fst, if_pos hb]
  · rw [Decoder_eq_17 vec17 (by decide), decode17_fst,
      if_pos (show getByte vec17 1 &&& 0x20 ≠ 0 from by decide),
      show u16 vec17
        (2 + (if getByte vec17 1 &&& 0x1 ≠ 0 then 2 else 0)
           + (if getByte vec17 1 &&& 0x2 ≠ 0 then 2 else 0)
           + (if getByte vec17 1 &&& 0x4 ≠ 0 then 1 else 0)
           + (if getByte vec17 1 &&& 0x8 ≠ 0 then 5 else 0)
           + (if getByte vec17 1 &&& 0x10 ≠ 0 then 2 else 0)) = 63751 from by decide]
    unfold uflt16
    rw [show (63751 &&& 0xFFF : ℕ) = 2311 from by decide,
      show (63751 >>> 12 : ℕ) = 15 from by decide]
    norm_num
  · rw [Decoder_eq_17 vec17 (by decide), decode17_fst,
      if_pos (show getByte vec17 1 &&& 0x4 ≠ 0 from by decide),
      show getByte vec17
        (2 + (if getByte vec17 1 &&& 0x1 ≠ 0 then 2 else 0)
           + (if getByte vec17 1 &&& 0x2 ≠ 0 then 2 else 0)) = 13 from by decide]
    norm_num

/-- C4 witness: the source's format 0x17 test vector has bit 0x20 set. -/
theorem c4_aqi_minifloat_witness :
    (Decoder vec17 1).aqi = some (uflt16 (u16 vec17
      (2 + (if getByte vec17 1 &&& 0x1 ≠ 0 then 2 else 0)
         + (if getByte vec17 1 &&& 0x2 ≠ 0 then 2 else 0)
         + (if getByte vec17 1 &&& 0x4 ≠ 0 then 1 else 0)
         + (if getByte vec17 1 &&& 0x8 ≠ 0 then 5 else 0)
         + (if getByte vec17 1 &&& 0x10 ≠ 0 then 2 else 0))) * 512) ∧
    (Decoder vec17 1).boot = some (13 : ℚ) := by
  have h := c4_aqi_minifloat vec17 (by decide)
  exact ⟨h.1 (by decide), h.2.2.2⟩

/-- C7 counterexample: on the truncated payload `[0x14, 0x01]` (flag bit
0x01 set but no voltage bytes) the cursor reaches 4, which exceeds the
payload length 2, so `0 <= cursor <= len(payload)` does not hold at all
times. -/
theorem c7_cursor_counterexample :
    4 ∈ DecoderTrace [0x14, 0x01] 1 ∧
    ¬ (∀ c ∈ DecoderTrace [0x14, 0x01] 1, c ≤ ([0x14, 0x01] : List ℕ).length) := by
  decide

/-- C7 amended: the cursor advances monotonically, each flag-guarded
block adding exactly the byte width of its field group (and 0 when the
bit is clear); since the cursor is a natural number `0 <= cursor` always
holds, and `cursor <= len(payload)` holds throughout whenever the final
cursor position (2 plus the total width of the selected field groups)
does not exceed the payload length — i.e. whenever the payload actually
contains all selected fields; on truncated payloads the cursor can
exceed the length. -/
theorem c7_cursor_monotone (bytes : List ℕ) (port : ℕ) :
    List.Chain' (· ≤ ·) (DecoderTrace bytes port) ∧
    (∀ s : DecodedRecord ℝ × ℕ,
      (stepVBat bytes s).2 = s.2 + (if getByte bytes 1 &&& 0x1 ≠ 0 then 2 else 0) ∧
      (stepVBus bytes s).2 = s.2 + (if getByte bytes 1 &&& 0x2 ≠ 0 then 2 else 0) ∧
      (stepBoot bytes s).2 = s.2 + (if getByte bytes 1 &&& 0x4 ≠ 0 then 1 else 0) ∧
      (∀ bit, (stepTPH bit dewQ bytes s).2 = s.2 + (if getByte bytes 1 &&& bit ≠ 0 then 5 else 0)) ∧
      (∀ bit, (stepLux bit bytes s).2 = s.2 + (if getByte bytes 1 &&& bit ≠ 0 then 2 else 0)) ∧
      (stepPowerCount bytes s).2 = s.2 + (if getByte bytes 1 &&& 0x20 ≠ 0 then 4 else 0) ∧
      (stepPowerRate bytes s).2 = s.2 + (if getByte bytes 1 &&& 0x40 ≠ 0 then 4 else 0) ∧
      (stepWaterSigned bytes s).2 = s.2 + (if getByte bytes 1 &&& 0x20 ≠ 0 then 2 else 0) ∧
      (stepWaterUnsigned bytes s).2 = s.2 + (if getByte bytes 1 &&& 0x10 ≠ 0 then 2 else 0) ∧
      (stepSoilSigned dewQ bytes s).2 = s.2 + (if getByte bytes 1 &&& 0x40 ≠ 0 then 3 else 0) ∧
      (stepSoilUnsigned dewQ bytes s).2 = s.2 + (if getByte bytes 1 &&& 0x20 ≠ 0 then 3 else 0) ∧
      (stepAqi bytes s).2 = s.2 + (if getByte bytes 1 &&& 0x20 ≠ 0 then 2 else 0)) ∧
    ((DecoderTrace bytes port).getLastD 0 ≤ bytes.length →
      ∀ c ∈ DecoderTrace bytes port, c ≤ bytes.length) := by
  have hchain : List.Chain' (· ≤ ·) (DecoderTrace bytes port) := by
    unfold DecoderTrace
    split_ifs
    · exact trace14_chain bytes
    · exact trace15_chain bytes
    · exact trace11_chain bytes
    · exact trace17_chain bytes
    · exact List.chain'_nil
    · exact List.chain'_nil
  refine ⟨hchain, fun s => ?_, fun h c hc => le_trans (le_getLastD_of_chain _ hchain c hc) h⟩
  exact ⟨stepVBat_snd _ _, stepVBus_snd _ _, stepBoot_snd _ _,
    fun bit => stepTPH_snd bit dewQ _ _, fun bit => stepLux_snd bit _ _,
    stepPowerCount_snd _ _, stepPowerRate_snd _ _, stepWaterSigned_snd _ _,
    stepWaterUnsigned_snd _ _, stepSoilSigned_snd dewQ _ _, stepSoilUnsigned_snd dewQ _ _,
    stepAqi_snd _ _⟩

/-- C7 witness: a complete format 0x14 payload, on which every cursor
value stays within the payload. -/
theorem c7_cursor_monotone_witness :
    List.Chain' (· ≤ ·) (DecoderTrace [0x14, 0x01, 0x18, 0x00] 1) ∧
    (∀ c ∈ DecoderTrace [0x14, 0x01, 0x18, 0x00] 1,
      c ≤ ([0x14, 0x01, 0x18, 0x00] : List ℕ).length) :=
  ⟨(c7_cursor_monotone [0x14, 0x01, 0x18, 0x00] 1).1,
   (c7_cursor_monotone [0x14, 0x01, 0x18, 0x00] 1).2.2 (by decide)⟩

/-- C9: the decoder is pure.  With the implicit global `cmd` modelled
explicitly, the record returned by an invocation does not depend on the
incoming global state (so two invocations with identical `(bytes, port)`
return equal records), and running any earlier invocation first does not
change the result of a later one. -/
theorem c9_decoder_pure (bytes : List ℕ) (port : ℕ) (g : Option ℕ) :
    (DecoderSt bytes port g).1 = Decoder bytes port ∧
    (∀ bytes2 port2,
      (DecoderSt bytes2 port2 (DecoderSt bytes port g).2).1 = Decoder bytes2 port2) := by
  constructor
  · unfold DecoderSt DecoderStGen Decoder DecoderGen
    split <;> rfl
  · intro b2 p2
    unfold DecoderSt DecoderStGen Decoder DecoderGen
    split <;> rfl

/-- C10: field groups appear or disappear together: `tempC` is present
exactly when `p`, `rh`, `error` and `tDewC` are; `tSoil` exactly when
`rhSoil` and `tSoilDew` are; `powerUsedCount` exactly when
`powerSourcedCount` is — for every payload and every channel. -/
theorem c10_field_groups_atomic (bytes : List ℕ) (port : ℕ) :
    ((Decoder bytes port).tempC.isSome ↔ (Decoder bytes port).p.isSome) ∧
    ((Decoder bytes port).tempC.isSome ↔ (Decoder bytes port).rh.isSome) ∧
    ((Decoder bytes port).tempC.isSome ↔ (Decoder bytes port).error.isSome) ∧
    ((Decoder bytes port).tempC.isSome ↔ (Decoder bytes port).tDewC.isSome) ∧
    ((Decoder bytes port).tSoil.isSome ↔ (Decoder bytes port).rhSoil.isSome) ∧
    ((Decoder bytes port).tSoil.isSome ↔ (Decoder bytes port).tSoilDew.isSome) ∧
    ((Decoder bytes port).powerUsedCount.isSome ↔
      (Decoder bytes port).powerSourcedCount.isSome) := by
  by_cases hp : port = 1
  · subst hp
    by_cases h14 : getByte bytes 0 = 0x14
    · rw [Decoder_eq_14 bytes h14, decode14_fst]
      simp [apply_ite Option.isSome]
    · by_cases h15 : getByte bytes 0 = 0x15
      · rw [Decoder_eq_15 bytes h15, decode15_fst]
        simp [apply_ite Option.isSome]
      · by_cases h11 : getByte bytes 0 = 0x11
        · rw [Decoder_eq_11 bytes h11, decode11_fst]
          simp [apply_ite Option.isSome]
        · by_cases h17 : getByte bytes 0 = 0x17
          · rw [Decoder_eq_17 bytes h17, decode17_fst]
            simp [apply_ite Option.isSome]
          · simp [Decoder, DecoderGen, dispatch, h14, h15, h11, h17]
  · simp [Decoder, DecoderGen, hp]

end Catena
